import Mathlib

/-!
Verification of `scripts/generateMonsters.py`.

A shallow embedding of the monster-data generation script of the
osrs-dps-calc repository.  The script has three phases:

1. `get_monster_data` — a paginated fetch loop against the wiki's `ask`
   API (modelled by `fetchIter` over a response oracle);
2. normalisation of each raw record into a canonical monster record
   (modelled by `normalizeRecord` / `normalize`);
3. an image-download loop with a local file cache
   (modelled by `dlStep` / `downloadAll`).

Python values that can flow through the printout arrays are modelled by
`PValue` (JSON numbers, JSON strings, and wiki page objects carrying a
`fulltext` field).  Python truthiness (`x or 0`), Python `==` against the
integer `0`, `str.replace`, `str.split`/`str.rsplit` on `'#'`, the
`in` substring test, and the `re.match("^([A-z]*):", k)` namespace test
are each given their own faithful executable definition.
-/

/-- A value occurring in an SMW printout array: a JSON number, a JSON
string, or a page object `{fulltext: ...}` (only its `fulltext` field is
ever read by the script). -/
inductive PValue where
  | num (n : Int)
  | str (s : String)
  | page (fulltext : String)
deriving DecidableEq

/-- Python truthiness of a printout value: `0`, `""` are falsy; page
objects (non-empty dicts) are truthy. -/
def pyTruthy : PValue → Bool
  | PValue.num n => n ≠ 0
  | PValue.str s => s ≠ ""
  | PValue.page _ => true

/-- Python `v == 0` for a printout value: only the number `0` equals the
integer `0`; strings and dicts never do. -/
def pyEqZero : PValue → Bool
  | PValue.num n => n = 0
  | PValue.str _ => false
  | PValue.page _ => false

/-- The helper `get_printout_value(prop)`: `None` on an empty array, else the first
element (lines 86–91 of the script). -/
def get_printout_value (prop : List PValue) : Option PValue :=
  prop.head?

/-- Python `get_printout_value(...) or 0`: the value if it is truthy,
otherwise the integer `0` (also when the value is `None`). -/
def pyOr0 : Option PValue → PValue
  | none => PValue.num 0
  | some v => if pyTruthy v then v else PValue.num 0

/-- Python dict subscript on an association list (first binding wins,
as in a dict without duplicate keys). -/
def assocGet {α : Type} (key : String) : List (String × α) → Option α
  | [] => none
  | (k, v) :: rest => if k = key then some v else assocGet key rest

/-- The helper `has_category(category_array, category)` (line 94): whether some
entry's `fulltext` equals `"Category:" ++ category`; the script only
uses its truthiness. -/
def has_category (cats : List PValue) (category : String) : Bool :=
  cats.any fun c =>
    match c with
    | PValue.page f => f = "Category:" ++ category
    | _ => false

/-- Python `k.split('#', 1)` on the character list: `none` when there is no
`'#'`, else the parts before and after the first `'#'`. -/
def splitHash : List Char → Option (List Char × List Char)
  | [] => none
  | c :: cs =>
    if c = '#' then some ([], cs)
    else
      match splitHash cs with
      | none => none
      | some (a, b) => some (c :: a, b)

/-- Line 119: `version = k.split('#', 1)[1]`, with the `IndexError`
handler yielding `''` when the key has no `'#'`. -/
def extractVersion (k : String) : String :=
  match splitHash k.data with
  | none => ""
  | some (_, b) => String.mk b

/-- Python `k.rsplit('#', 1)[0]`: everything before the last `'#'`, or the
whole key when there is none. -/
def rsplitHead (l : List Char) : List Char :=
  match splitHash l.reverse with
  | none => l
  | some (_, b) => b.reverse

/-- Line 141: `k.rsplit('#', 1)[0] or ''` (the `or ''` maps the empty
string to itself, so it is kept for faithfulness only). -/
def extractName (k : String) : String :=
  if String.mk (rsplitHead k.data) = "" then "" else String.mk (rsplitHead k.data)

/-- Scanner for `re.match("^([A-z]*):", k)` (line 129): consume
characters in the ASCII range `A`–`z` (codes 65–122, which includes
`[ \ ] ^ _` and the backquote), then require a `':'`.  Because `':'`
(code 58) is outside the class, greedy matching is deterministic and
this scan is exact. -/
def nsScan : List Char → Bool
  | [] => false
  | c :: cs =>
    if c.toNat = 58 then true
    else if 65 ≤ c.toNat ∧ c.toNat ≤ 122 then nsScan cs
    else false

/-- The namespace-skip test `re.match("^([A-z]*):", k)` of line 129. -/
def nsMatch (k : String) : Bool :=
  nsScan k.data

/-- ASCII alphabetic character (`A`–`Z` or `a`–`z`). -/
def isAsciiAlpha (c : Char) : Bool :=
  (65 ≤ c.toNat ∧ c.toNat ≤ 90) ∨ (97 ≤ c.toNat ∧ c.toNat ≤ 122)

/-- Scanner for the claim's pattern `^[A-Za-z]+:` after its first
character: consume ASCII letters, then require `':'`. -/
def specScan : List Char → Bool
  | [] => false
  | c :: cs =>
    if c.toNat = 58 then true
    else if isAsciiAlpha c then specScan cs
    else false

/-- The claim's pattern `^[A-Za-z]+:`: at least one ASCII letter
followed by a colon, anchored at the start of the key. -/
def specNsMatch (k : String) : Bool :=
  match k.data with
  | [] => false
  | c :: cs => isAsciiAlpha c && specScan cs

/-- Substring test, Python's `pat in s` on character lists. -/
def subOccurs (pat : List Char) : List Char → Bool
  | [] => pat.isEmpty
  | c :: cs => pat.isPrefixOf (c :: cs) || subOccurs pat cs

/-- Python's `pat in s` for strings. -/
def pyInStr (pat s : String) : Bool :=
  subOccurs pat.data s.data

/-- Python `str.lower` (ASCII, which covers every name the script
compares against). -/
def lowerStr (s : String) : String :=
  String.mk (s.data.map Char.toLower)

/-- Python `s.replace(pat, rep)` on character lists: replace every
non-overlapping occurrence, scanning left to right.  The recursion is
made structural by a fuel argument; every step consumes at least one
character, so fuel equal to the scanned list's length (as supplied by
`pyReplace`) is always enough, and the fuel-exhausted branch is never
taken. -/
def pyReplaceFuel (pat rep : List Char) : Nat → List Char → List Char
  | _, [] => []
  | 0, l => l
  | fuel + 1, c :: cs =>
    if pat.isPrefixOf (c :: cs) && !pat.isEmpty then
      rep ++ pyReplaceFuel pat rep fuel (List.drop (pat.length - 1) cs)
    else
      c :: pyReplaceFuel pat rep fuel cs

/-- Python `s.replace(pat, rep)` for strings. -/
def pyReplace (s pat rep : String) : String :=
  String.mk (pyReplaceFuel pat.data rep.data s.data.length s.data)

/-- The printouts mapping of a raw record: property name to value
array. -/
abbrev Printouts := List (String × List PValue)

/-- A raw wiki record; the script only reads its `printouts` member and
checks its presence (`'printouts' not in v`). -/
structure RawRecord where
  printouts : Option Printouts
deriving DecidableEq

/-- The canonical monster record built at lines 139–171.  Numeric-ish
fields hold `PValue`s because the Python code stores whatever the
printout array contained (defaulted to the integer `0`). -/
structure Monster where
  id : Option PValue
  name : String
  version : String
  image : String
  level : PValue
  speed : PValue
  size : PValue
  skills : List PValue
  offensive : List PValue
  defensive : List PValue
  attributes : List PValue
deriving DecidableEq

/-- The printout arrays the monster-dict construction reads, in source
order. -/
structure POVals where
  npcId : List PValue
  imagePo : List PValue
  combatLevel : List PValue
  attackSpeed : List PValue
  sizePo : List PValue
  attackLevel : List PValue
  defenceLevel : List PValue
  hitpoints : List PValue
  magicLevel : List PValue
  rangedLevel : List PValue
  strengthLevel : List PValue
  attackBonus : List PValue
  magicDamageBonus : List PValue
  magicAttackBonus : List PValue
  rangeAttackBonus : List PValue
  rangedStrengthBonus : List PValue
  strengthBonus : List PValue
  crushDefenceBonus : List PValue
  magicDefenceBonus : List PValue
  rangeDefenceBonus : List PValue
  slashDefenceBonus : List PValue
  stabDefenceBonus : List PValue
  monsterAttribute : List PValue
deriving DecidableEq

/-- All property keys the monster-dict construction subscripts are
present in the printouts mapping. -/
def hasAllKeys (po : Printouts) : Bool :=
  (assocGet "NPC ID" po).isSome &&
  (assocGet "Image" po).isSome &&
  (assocGet "Combat level" po).isSome &&
  (assocGet "Attack speed" po).isSome &&
  (assocGet "Size" po).isSome &&
  (assocGet "Attack level" po).isSome &&
  (assocGet "Defence level" po).isSome &&
  (assocGet "Hitpoints" po).isSome &&
  (assocGet "Magic level" po).isSome &&
  (assocGet "Ranged level" po).isSome &&
  (assocGet "Strength level" po).isSome &&
  (assocGet "Attack bonus" po).isSome &&
  (assocGet "Magic Damage bonus" po).isSome &&
  (assocGet "Magic attack bonus" po).isSome &&
  (assocGet "Range attack bonus" po).isSome &&
  (assocGet "Ranged Strength bonus" po).isSome &&
  (assocGet "Strength bonus" po).isSome &&
  (assocGet "Crush defence bonus" po).isSome &&
  (assocGet "Magic defence bonus" po).isSome &&
  (assocGet "Range defence bonus" po).isSome &&
  (assocGet "Slash defence bonus" po).isSome &&
  (assocGet "Stab defence bonus" po).isSome &&
  (assocGet "Monster attribute" po).isSome

/-- Fetch every printout array the monster-dict construction subscripts;
`none` exactly when some key is absent, which in Python raises a
`KeyError` that propagates out of `main` (the identity of the missing
key is collapsed here: only the abort behaviour is observable). -/
def lookupAllOpt (po : Printouts) : Option POVals :=
  if hasAllKeys po then
    some {
      npcId := (assocGet "NPC ID" po).getD []
      imagePo := (assocGet "Image" po).getD []
      combatLevel := (assocGet "Combat level" po).getD []
      attackSpeed := (assocGet "Attack speed" po).getD []
      sizePo := (assocGet "Size" po).getD []
      attackLevel := (assocGet "Attack level" po).getD []
      defenceLevel := (assocGet "Defence level" po).getD []
      hitpoints := (assocGet "Hitpoints" po).getD []
      magicLevel := (assocGet "Magic level" po).getD []
      rangedLevel := (assocGet "Ranged level" po).getD []
      strengthLevel := (assocGet "Strength level" po).getD []
      attackBonus := (assocGet "Attack bonus" po).getD []
      magicDamageBonus := (assocGet "Magic Damage bonus" po).getD []
      magicAttackBonus := (assocGet "Magic attack bonus" po).getD []
      rangeAttackBonus := (assocGet "Range attack bonus" po).getD []
      rangedStrengthBonus := (assocGet "Ranged Strength bonus" po).getD []
      strengthBonus := (assocGet "Strength bonus" po).getD []
      crushDefenceBonus := (assocGet "Crush defence bonus" po).getD []
      magicDefenceBonus := (assocGet "Magic defence bonus" po).getD []
      rangeDefenceBonus := (assocGet "Range defence bonus" po).getD []
      slashDefenceBonus := (assocGet "Slash defence bonus" po).getD []
      stabDefenceBonus := (assocGet "Stab defence bonus" po).getD []
      monsterAttribute := (assocGet "Monster attribute" po).getD []
    }
  else none

/-- Line 143: `'' if not po['Image'] else
po['Image'][0]['fulltext'].replace('File:', '')`.  Subscripting
`['fulltext']` on a non-dict first element is a Python `TypeError`,
modelled as an error. -/
def imageField : List PValue → Except String String
  | [] => Except.ok ""
  | PValue.page f :: _ => Except.ok (pyReplace f "File:" "")
  | _ :: _ => Except.error "TypeError: fulltext"

/-- The pruning condition of lines 174–185. -/
def pruneCond (m : Monster) : Bool :=
  pyEqZero (m.skills.getD 2 (PValue.num 0)) ||
  m.id.isNone ||
  pyInStr "(historical)" (lowerStr m.name) ||
  pyInStr "(pvm arena)" (lowerStr m.name) ||
  pyInStr "(deadman: apocalypse)" (lowerStr m.name)

/-- The hardcoded Vardorvis defence/strength overrides of lines
188–198. -/
def vardOverride (m : Monster) : Monster :=
  if m.name = "Vardorvis" then
    if m.version = "Post-Quest" then
      { m with skills := (m.skills.set 1 (PValue.num 215)).set 5 (PValue.num 270) }
    else if m.version = "Awakened" then
      { m with skills := (m.skills.set 1 (PValue.num 268)).set 5 (PValue.num 391) }
    else if m.version = "Quest" then
      { m with skills := (m.skills.set 1 (PValue.num 180)).set 5 (PValue.num 210) }
    else m
  else m

/-- The monster dict literal of lines 139–171, after all printout
arrays have been fetched and the image field converted. -/
def monsterOf (k version : String) (pv : POVals) (img : String) : Monster :=
  {
    id := get_printout_value pv.npcId
    name := extractName k
    version := version
    image := img
    level := pyOr0 (get_printout_value pv.combatLevel)
    speed := pyOr0 (get_printout_value pv.attackSpeed)
    size := pyOr0 (get_printout_value pv.sizePo)
    skills := [
      pyOr0 (get_printout_value pv.attackLevel),
      pyOr0 (get_printout_value pv.defenceLevel),
      pyOr0 (get_printout_value pv.hitpoints),
      pyOr0 (get_printout_value pv.magicLevel),
      pyOr0 (get_printout_value pv.rangedLevel),
      pyOr0 (get_printout_value pv.strengthLevel)
    ]
    offensive := [
      pyOr0 (get_printout_value pv.attackBonus),
      pyOr0 (get_printout_value pv.magicDamageBonus),
      pyOr0 (get_printout_value pv.magicAttackBonus),
      pyOr0 (get_printout_value pv.rangeAttackBonus),
      pyOr0 (get_printout_value pv.rangedStrengthBonus),
      pyOr0 (get_printout_value pv.strengthBonus)
    ]
    defensive := [
      pyOr0 (get_printout_value pv.crushDefenceBonus),
      pyOr0 (get_printout_value pv.magicDefenceBonus),
      pyOr0 (get_printout_value pv.rangeDefenceBonus),
      pyOr0 (get_printout_value pv.slashDefenceBonus),
      pyOr0 (get_printout_value pv.stabDefenceBonus)
    ]
    attributes := pv.monsterAttribute
  }

/-- The monster-dict construction (lines 139–171), the pruning step
(174–186) and the Vardorvis override (188–198), after all printout
arrays have been fetched: `none` means the record was pruned. -/
def buildMonster (k version : String) (pv : POVals) (img : String) : Option Monster :=
  if pruneCond (monsterOf k version pv img) then none
  else some (vardOverride (monsterOf k version pv img))

/-- One iteration of the normalisation loop (lines 107–202) for a single
raw record: `ok none` is a skip, `ok (some m)` keeps the monster, and
`error` is an uncaught Python exception that aborts the whole run. -/
def normalizeRecord (k : String) (v : RawRecord) : Except String (Option Monster) :=
  match v.printouts with
  | none => Except.ok none
  | some po =>
    if pyInStr "Challenge Mode" (extractVersion k) then Except.ok none
    else if nsMatch k then Except.ok none
    else
      match assocGet "Category" po with
      | none => Except.error "KeyError: Category"
      | some cat =>
        if has_category cat "Non-interactive scenery" ||
           has_category cat "Discontinued content" then Except.ok none
        else
          match lookupAllOpt po with
          | none => Except.error "KeyError"
          | some pv =>
            match imageField pv.imagePo with
            | Except.error e => Except.error e
            | Except.ok img => Except.ok (buildMonster k (extractVersion k) pv img)

/-- The whole normalisation loop: the surviving monsters in iteration
order, and the `required_imgs` list (non-empty image names of surviving
monsters, in order, before deduplication).  An exception from any record
aborts the run. -/
def normalizeAll : List (String × RawRecord) → Except String (List Monster × List String)
  | [] => Except.ok ([], [])
  | (k, v) :: rest =>
    match normalizeRecord k v with
    | Except.error e => Except.error e
    | Except.ok none => normalizeAll rest
    | Except.ok (some m) =>
      match normalizeAll rest with
      | Except.error e => Except.error e
      | Except.ok (ms, imgs) =>
        Except.ok (m :: ms, if m.image = "" then imgs else m.image :: imgs)

/-! Part: The fetch loop (`get_monster_data`, lines 57–83) -/

/-- One parsed API response: `results` is `none` when `query.results` is
absent, `contOffset` is `none` when `query-continue-offset` is absent. -/
structure FetchResp where
  results : Option (List (String × RawRecord))
  contOffset : Option Int

/-- Python dict merge `monsters | results`: keys of the left dict in
order with values overridden by the right, then the right dict's new
keys. -/
def dictMerge (old new : List (String × RawRecord)) : List (String × RawRecord) :=
  (old.map fun p => match assocGet p.1 new with
    | some v => (p.1, v)
    | none => p) ++
  new.filter fun p => (assocGet p.1 old).isNone

/-- The fetch loop, fuel-bounded: `resp call` is the parsed response of
the given HTTP call, `offset` the current offset, `ms` the accumulated
monsters.  `some ms` means the loop broke out within `fuel` calls;
`none` means it was still running after `fuel` calls.  The body mirrors
lines 60–82: break if `query.results` is absent; merge; break if the
continuation offset is absent or strictly less than the current offset;
otherwise continue with the continuation offset. -/
def fetchIter (resp : Nat → FetchResp) :
    Nat → Nat → Int → List (String × RawRecord) → Option (List (String × RawRecord))
  | 0, _, _, _ => none
  | fuel + 1, call, offset, ms =>
    match (resp call).results with
    | none => some ms
    | some res =>
      match (resp call).contOffset with
      | none => some (dictMerge ms res)
      | some c =>
        if c < offset then some (dictMerge ms res)
        else fetchIter resp fuel (call + 1) c (dictMerge ms res)

/-- A response oracle that always returns one page of results and a
continuation offset of 500 — the claim's scenario where the second
response repeats `query-continue-offset=500`. -/
def constResp500 : Nat → FetchResp := fun _ =>
  { results := some [("Abyssal demon", { printouts := some [] })]
    contOffset := some 500 }

/-! Part: The image-download loop (lines 211–237) -/

/-- An HTTP response of the filepath endpoint: status code and raw
body bytes. -/
structure HttpResp where
  status : Nat
  body : List Nat

/-- The state of the download loop: the cache directory contents
(filename–bytes pairs) and the three counters. -/
structure DlState where
  files : List (String × List Nat)
  succeeded : Nat
  failed : Nat
  skipped : Nat
deriving DecidableEq

/-- Python `os.path.isfile(IMG_PATH + img)` against the modelled cache. -/
def isCached (files : List (String × List Nat)) (img : String) : Bool :=
  (assocGet img files).isSome

/-- The body of the download loop (lines 217–233) for one image name:
skip if cached; on HTTP 200 write the body verbatim and count a
success; otherwise count a failure and write nothing. -/
def dlStep (http : String → HttpResp) (st : DlState) (img : String) : DlState :=
  if isCached st.files img then
    { st with skipped := st.skipped + 1 }
  else if (http img).status = 200 then
    { st with files := (img, (http img).body) :: st.files, succeeded := st.succeeded + 1 }
  else
    { st with failed := st.failed + 1 }

/-- The whole download phase over the (deduplicated) required-image
list. -/
def downloadAll (http : String → HttpResp) (st : DlState) (names : List String) : DlState :=
  names.foldl (dlStep http) st

/-! Part: Spec-side definitions used to state refinement claims -/

/-- The spec's reading of the image field: the `File:` prefix stripped
when it is a leading prefix, the fulltext otherwise unchanged. -/
def specLeadingFileStripped (f : String) : String :=
  if ("File:".data).isPrefixOf f.data then String.mk (f.data.drop 5) else f

/-! Part: Concrete record builders for scenarios and counterexamples -/

/-- A printouts mapping with every required key present; the NPC ID,
Image, Hitpoints, Defence level and Strength level arrays are
parameters, every other array is empty. -/
def mkPO (npcId imagePo hp dlvl slvl : List PValue) : Printouts :=
  [("Category", []),
   ("NPC ID", npcId),
   ("Image", imagePo),
   ("Combat level", []),
   ("Attack speed", []),
   ("Size", []),
   ("Attack level", []),
   ("Defence level", dlvl),
   ("Hitpoints", hp),
   ("Magic level", []),
   ("Ranged level", []),
   ("Strength level", slvl),
   ("Attack bonus", []),
   ("Magic Damage bonus", []),
   ("Magic attack bonus", []),
   ("Range attack bonus", []),
   ("Ranged Strength bonus", []),
   ("Strength bonus", []),
   ("Crush defence bonus", []),
   ("Magic defence bonus", []),
   ("Range defence bonus", []),
   ("Slash defence bonus", []),
   ("Stab defence bonus", []),
   ("Monster attribute", [])]

/-! Part: C1 — the fetch loop on a repeated continuation offset -/

/-- With the constant-offset oracle the loop never breaks: the test
`int(data['query-continue-offset']) < offset` is false when the
continuation offset equals the current offset, so the loop takes the
`else` branch and issues another request. -/
theorem fetchIter_const500_stuck (fuel : Nat) :
    ∀ (call : Nat) (offset : Int) (ms : List (String × RawRecord)),
      offset ≤ 500 → fetchIter constResp500 fuel call offset ms = none := by
  induction fuel with
  | zero => intro call offset ms _; rfl
  | succ n ih =>
    intro call offset ms h
    show (if (500 : Int) < offset then _ else _) = none
    rw [if_neg (by omega)]
    exact ih (call + 1) 500 _ (by omega)

/-- C1: the claim says that a response whose continuation offset is not
strictly greater than the current offset (in particular equal, as in the
`query-continue-offset=500` twice scenario) ends the loop after merging
that page, i.e. after two calls.  The code's test is
`int(data['query-continue-offset']) < offset`, which is false for equal
offsets, so with every response carrying `query-continue-offset=500` the
loop never terminates, whatever call budget it is given — it does not
stop after two calls. -/
theorem C1_fetch_loop_diverges_on_equal_offset (fuel : Nat) :
    fetchIter constResp500 fuel 0 0 [] = none :=
  fetchIter_const500_stuck fuel 0 0 [] (by omega)

/-! Part: C5 — namespace-prefixed keys are excluded -/

/-- The claim's anchored pattern `^[A-Za-z]+:` implies the code's
anchored pattern `^([A-z]*):` on the tail scan. -/
theorem specScan_imp_nsScan (l : List Char) (h : specScan l = true) :
    nsScan l = true := by
  induction l with
  | nil => simp [specScan] at h
  | cons c cs ih =>
    by_cases h58 : c.toNat = 58
    · simp [nsScan, h58]
    · rw [specScan, if_neg h58] at h
      by_cases ha : isAsciiAlpha c = true
      · rw [if_pos ha] at h
        have hrange : 65 ≤ c.toNat ∧ c.toNat ≤ 122 := by
          simp only [isAsciiAlpha, decide_eq_true_eq] at ha
          omega
        rw [nsScan, if_neg h58, if_pos hrange]
        exact ih h
      · rw [if_neg ha] at h
        exact absurd h (by simp)

/-- The claim's pattern implies the code's pattern on whole keys. -/
theorem specNsMatch_imp_nsMatch (k : String) (h : specNsMatch k = true) :
    nsMatch k = true := by
  unfold specNsMatch at h
  unfold nsMatch
  rcases hd : k.data with _ | ⟨c, cs⟩ <;> rw [hd] at h
  · exact absurd h (by simp)
  · rw [Bool.and_eq_true] at h
    have hrange : 65 ≤ c.toNat ∧ c.toNat ≤ 122 := by
      have := h.1
      simp only [isAsciiAlpha, decide_eq_true_eq] at this
      omega
    have h58 : ¬ c.toNat = 58 := by omega
    rw [nsScan, if_neg h58, if_pos hrange]
    exact specScan_imp_nsScan cs h.2

/-- A key matching the claim's pattern is skipped by `normalizeRecord`,
whatever the record's fields are. -/
theorem normalizeRecord_ns_skip (k : String) (v : RawRecord)
    (h : specNsMatch k = true) : normalizeRecord k v = Except.ok none := by
  have hns := specNsMatch_imp_nsMatch k h
  unfold normalizeRecord
  cases hv : v.printouts with
  | none => rfl
  | some po =>
    by_cases hcm : pyInStr "Challenge Mode" (extractVersion k) = true
    · simp only [hcm, if_true]
    · simp only [hcm, if_false, Bool.false_eq_true, hns, if_true]

/-- C5: every raw record whose key matches `^[A-Za-z]+:` (an alphabetic
token followed by a colon at the start of the key) contributes nothing
to the normalized output, regardless of its other fields: the
normalisation of a batch starting with such a record equals the
normalisation of the rest of the batch. -/
theorem C5_namespace_keys_excluded (k : String) (v : RawRecord)
    (rest : List (String × RawRecord)) (h : specNsMatch k = true) :
    normalizeAll ((k, v) :: rest) = normalizeAll rest := by
  conv_lhs => rw [normalizeAll]
  rw [normalizeRecord_ns_skip k v h]

/-- Witness for C5 at the concrete key `"Category:Monsters"`. -/
theorem C5_namespace_keys_excluded_witness :
    specNsMatch "Category:Monsters" = true ∧
    normalizeAll [("Category:Monsters", ({ printouts := some [] } : RawRecord))] =
      normalizeAll [] :=
  ⟨by decide,
   C5_namespace_keys_excluded "Category:Monsters" { printouts := some [] } [] (by decide)⟩

/-! Part: C10 — the download counters partition the name set -/

/-- The loop `downloadAll` unfolds one step at a time. -/
theorem downloadAll_cons (http : String → HttpResp) (st : DlState) (n : String)
    (rest : List String) :
    downloadAll http st (n :: rest) = downloadAll http (dlStep http st n) rest := rfl

/-- Each loop iteration increments exactly one of the three counters. -/
theorem dlStep_counter_sum (http : String → HttpResp) (st : DlState) (n : String) :
    (dlStep http st n).succeeded + (dlStep http st n).failed + (dlStep http st n).skipped
      = st.succeeded + st.failed + st.skipped + 1 := by
  unfold dlStep
  split
  · simp
    omega
  · split <;> simp <;> omega

/-- Counter bookkeeping over the whole download loop. -/
theorem downloadAll_counter_sum (http : String → HttpResp) (ns : List String) :
    ∀ st : DlState,
      (downloadAll http st ns).succeeded + (downloadAll http st ns).failed +
        (downloadAll http st ns).skipped
      = st.succeeded + st.failed + st.skipped + ns.length := by
  induction ns with
  | nil => intro st; simp [downloadAll]
  | cons n rest ih =>
    intro st
    rw [downloadAll_cons, ih (dlStep http st n)]
    rw [dlStep_counter_sum]
    simp only [List.length_cons]
    omega

/-- C10: starting from zeroed counters, after the download phase
`succeeded + failed + skipped` equals the number of distinct names in the
deduplicated required-image set. -/
theorem C10_counters_partition (http : String → HttpResp)
    (files0 : List (String × List Nat)) (names : List String)
    (h : names.Nodup) :
    (downloadAll http ⟨files0, 0, 0, 0⟩ names).succeeded +
    (downloadAll http ⟨files0, 0, 0, 0⟩ names).failed +
    (downloadAll http ⟨files0, 0, 0, 0⟩ names).skipped = names.length := by
  simpa using downloadAll_counter_sum http names ⟨files0, 0, 0, 0⟩

/-- Witness for C10 on a concrete two-name set. -/
theorem C10_counters_partition_witness :
    (downloadAll (fun _ => ⟨200, []⟩) ⟨[], 0, 0, 0⟩ ["a.png", "b.png"]).succeeded +
    (downloadAll (fun _ => ⟨200, []⟩) ⟨[], 0, 0, 0⟩ ["a.png", "b.png"]).failed +
    (downloadAll (fun _ => ⟨200, []⟩) ⟨[], 0, 0, 0⟩ ["a.png", "b.png"]).skipped = 2 :=
  C10_counters_partition (fun _ => ⟨200, []⟩) [] ["a.png", "b.png"] (by decide)

/-! Part: Inversion helpers for the normalisation pipeline -/

/-- If the whole printout fetch succeeded, the `Image` and `Hitpoints`
arrays stored in the result are exactly the looked-up ones. -/
theorem lookupAllOpt_fields (po : Printouts) (pv : POVals)
    (h : lookupAllOpt po = some pv) :
    assocGet "Image" po = some pv.imagePo ∧
    assocGet "Hitpoints" po = some pv.hitpoints := by
  unfold lookupAllOpt at h
  split at h
  case isTrue hall =>
    injection h with h
    subst h
    constructor
    · cases hx : assocGet "Image" po with
      | some x => simp [hx]
      | none => simp [hasAllKeys, hx] at hall
    · cases hx : assocGet "Hitpoints" po with
      | some x => simp [hx]
      | none => simp [hasAllKeys, hx] at hall
  case isFalse _ => exact absurd h (by simp)

/-- The hitpoints slot of the monster dict is the defaulted first
element of the `Hitpoints` printout. -/
theorem monsterOf_skills_hp (k version : String) (pv : POVals) (img : String) :
    (monsterOf k version pv img).skills.getD 2 (PValue.num 0)
      = pyOr0 (get_printout_value pv.hitpoints) := rfl

/-- An empty `Hitpoints` printout, or one whose first element is the
number `0`, makes the pruning condition fire. -/
theorem buildMonster_prune_of_hp (k version : String) (pv : POVals) (img : String)
    (h : pv.hitpoints = [] ∨ pv.hitpoints.head? = some (PValue.num 0)) :
    buildMonster k version pv img = none := by
  have hz : pyOr0 (get_printout_value pv.hitpoints) = PValue.num 0 := by
    rcases h with h | h
    · simp [get_printout_value, h, pyOr0]
    · simp [get_printout_value, h, pyOr0, pyTruthy]
  have hc : pruneCond (monsterOf k version pv img) = true := by
    unfold pruneCond
    rw [monsterOf_skills_hp, hz]
    simp [pyEqZero]
  unfold buildMonster
  rw [if_pos hc]

/-- The Vardorvis override only touches the skills list. -/
theorem vardOverride_image (m : Monster) : (vardOverride m).image = m.image := by
  unfold vardOverride
  repeat' split
  all_goals rfl

/-- A monster that survives was produced from a record with printouts,
a successful fetch of every required array, a converted image field,
and the dict construction on those arrays. -/
theorem normalizeRecord_ok_some (k : String) (v : RawRecord) (m : Monster)
    (h : normalizeRecord k v = Except.ok (some m)) :
    ∃ po pv img, v.printouts = some po ∧ lookupAllOpt po = some pv ∧
      imageField pv.imagePo = Except.ok img ∧
      buildMonster k (extractVersion k) pv img = some m := by
  unfold normalizeRecord at h
  cases hpo : v.printouts with
  | none => rw [hpo] at h; exact absurd h (by simp)
  | some po =>
    simp only [hpo] at h
    by_cases hcm : pyInStr "Challenge Mode" (extractVersion k) = true
    · rw [if_pos hcm] at h; exact absurd h (by simp)
    · rw [if_neg hcm] at h
      by_cases hns : nsMatch k = true
      · rw [if_pos hns] at h; exact absurd h (by simp)
      · rw [if_neg hns] at h
        cases hcat : assocGet "Category" po with
        | none => simp only [hcat] at h; exact absurd h (by simp)
        | some cat =>
          simp only [hcat] at h
          by_cases hcats : (has_category cat "Non-interactive scenery" ||
              has_category cat "Discontinued content") = true
          · rw [if_pos hcats] at h; exact absurd h (by simp)
          · rw [if_neg hcats] at h
            cases hla : lookupAllOpt po with
            | none => simp only [hla] at h; exact absurd h (by simp)
            | some pv =>
              simp only [hla] at h
              cases himg : imageField pv.imagePo with
              | error e => simp only [himg] at h; exact absurd h (by simp)
              | ok img =>
                simp only [himg] at h
                injection h with h
                exact ⟨po, pv, img, rfl, hla, himg, h⟩

/-! Part: C2 — empty or zero hitpoints -/

/-- The C2 counterexample record: every required printout present,
`NPC ID = [123]`, `Hitpoints = ["0"]` (the JSON string). -/
def cx2rec : RawRecord :=
  { printouts := some (mkPO [PValue.num 123] [] [PValue.str "0"] [] []) }

/-- The monster the script produces for `cx2rec`. -/
def cx2monster : Monster :=
  { id := some (PValue.num 123), name := "Goblin", version := "", image := "",
    level := PValue.num 0, speed := PValue.num 0, size := PValue.num 0,
    skills := [PValue.num 0, PValue.num 0, PValue.str "0",
               PValue.num 0, PValue.num 0, PValue.num 0],
    offensive := [PValue.num 0, PValue.num 0, PValue.num 0,
                  PValue.num 0, PValue.num 0, PValue.num 0],
    defensive := [PValue.num 0, PValue.num 0, PValue.num 0,
                  PValue.num 0, PValue.num 0],
    attributes := [] }

/-- C2, counterexample: a record whose `Hitpoints` printout is the
single-element array `["0"]` (the JSON string `"0"`) is NOT excluded:
Python's `get_printout_value(...) or 0` keeps the truthy string `"0"`,
and the pruning test `monster['skills'][2] == 0` is `False` because a
string never equals the integer `0`.  The record appears in the
normalized output. -/
theorem C2_counterexample_string_zero_survives :
    assocGet "Hitpoints" (mkPO [PValue.num 123] [] [PValue.str "0"] [] [])
      = some [PValue.str "0"] ∧
    normalizeAll [("Goblin", cx2rec)] = Except.ok ([cx2monster], []) :=
  ⟨rfl, rfl⟩

/-- C2, amended: a record whose `Hitpoints` printout is empty or whose
first element is the JSON number `0` is excluded from the normalized
output (it can never survive as a monster record); the original claim's
`["0"]` with a string `"0"` survives, since `"0"` is truthy and not
`== 0` in Python. -/
theorem C2_amended_zero_hp_excluded (k : String) (v : RawRecord) (po : Printouts)
    (hp : List PValue) (m : Monster)
    (hpo : v.printouts = some po)
    (hhp : assocGet "Hitpoints" po = some hp)
    (hz : hp = [] ∨ hp.head? = some (PValue.num 0)) :
    normalizeRecord k v ≠ Except.ok (some m) := by
  intro h
  obtain ⟨po', pv, img, hpo', hla, himg, hb⟩ := normalizeRecord_ok_some k v m h
  rw [hpo] at hpo'
  injection hpo' with hpo'
  subst hpo'
  have hfields := lookupAllOpt_fields po pv hla
  have hhp2 : pv.hitpoints = hp := by
    rw [hfields.2] at hhp
    injection hhp
  rw [buildMonster_prune_of_hp k (extractVersion k) pv img (by rw [hhp2]; exact hz)] at hb
  exact absurd hb (by simp)

/-- Witness for the amended C2 at a record with an empty `Hitpoints`
printout. -/
theorem C2_amended_zero_hp_excluded_witness :
    normalizeRecord "Rat" { printouts := some (mkPO [PValue.num 1] [] [] [] []) } ≠
      Except.ok (some cx2monster) :=
  C2_amended_zero_hp_excluded "Rat" _ (mkPO [PValue.num 1] [] [] [] []) [] cx2monster
    rfl rfl (Or.inl rfl)

/-! Part: C6 — version and name extraction from the key -/

/-- The splitter `splitHash` finds nothing in a `'#'`-free list. -/
theorem splitHash_not_mem (l : List Char) (h : '#' ∉ l) : splitHash l = none := by
  induction l with
  | nil => rfl
  | cons c cs ih =>
    simp only [List.mem_cons, not_or] at h
    rw [splitHash, if_neg (fun hc => h.1 hc.symm), ih h.2]

/-- The splitter `splitHash` splits at the first `'#'`. -/
theorem splitHash_append (a b : List Char) (ha : '#' ∉ a) :
    splitHash (a ++ '#' :: b) = some (a, b) := by
  induction a with
  | nil => simp [splitHash]
  | cons c cs ih =>
    simp only [List.mem_cons, not_or] at ha
    rw [List.cons_append, splitHash, if_neg (fun hc => ha.1 hc.symm), ih ha.2]

/-- On a key with a single `'#'`, `extractVersion` yields the suffix. -/
theorem extractVersion_eq (a b : List Char) (ha : '#' ∉ a) :
    extractVersion (String.mk (a ++ '#' :: b)) = String.mk b := by
  unfold extractVersion
  rw [show (String.mk (a ++ '#' :: b)).data = a ++ '#' :: b from rfl,
      splitHash_append a b ha]

/-- The `or ''` in the name extraction is the identity. -/
theorem extractName_eq_mk (k : String) :
    extractName k = String.mk (rsplitHead k.data) := by
  unfold extractName
  split
  case isTrue h => exact h.symm
  case isFalse => rfl

/-- On a list with a single `'#'` (none in `b`), `rsplitHead` yields the
part before it. -/
theorem rsplitHead_eq (a b : List Char) (hb : '#' ∉ b) :
    rsplitHead (a ++ '#' :: b) = a := by
  unfold rsplitHead
  have hrev : (a ++ '#' :: b).reverse = b.reverse ++ '#' :: a.reverse := by
    simp [List.reverse_append]
  rw [hrev, splitHash_append _ _ (by simpa using hb)]
  simp

/-- Appending the parts back. -/
theorem mk_append_hash (a b : List Char) :
    String.mk a ++ "#" ++ String.mk b = String.mk (a ++ '#' :: b) := by
  apply String.ext
  simp [String.data_append, show "#".data = ['#'] from rfl, List.append_assoc]

/-- C6, counterexample: for the key `"A#B#C"` the code's version is the
suffix after the FIRST `'#'` (`split`) but the name is the part before
the LAST `'#'` (`rsplit`), so `name + '#' + version` does not
reconstitute the key and the name is not the key with the version
suffix stripped. -/
theorem C6_counterexample_double_hash :
    extractVersion "A#B#C" = "B#C" ∧ extractName "A#B#C" = "A#B" ∧
    extractName "A#B#C" ++ "#" ++ extractVersion "A#B#C" ≠ "A#B#C" := by
  refine ⟨rfl, rfl, ?_⟩
  decide

/-- C6, amended: the version is the suffix after the first `'#'`
(empty when there is no `'#'`), and the name is the part before the
LAST `'#'`; consequently `name + '#' + version` equals the key exactly
for keys containing a single `'#'`, and for keys without `'#'` the name
is the key and the version is empty. -/
theorem C6_amended_name_version (a b l : List Char)
    (ha : '#' ∉ a) (hb : '#' ∉ b) (hl : '#' ∉ l) :
    extractVersion (String.mk (a ++ '#' :: b)) = String.mk b ∧
    extractName (String.mk (a ++ '#' :: b)) = String.mk a ∧
    extractName (String.mk (a ++ '#' :: b)) ++ "#" ++
      extractVersion (String.mk (a ++ '#' :: b)) = String.mk (a ++ '#' :: b) ∧
    extractName (String.mk l) = String.mk l ∧
    extractVersion (String.mk l) = "" := by
  have hv := extractVersion_eq a b ha
  have hn : extractName (String.mk (a ++ '#' :: b)) = String.mk a := by
    rw [extractName_eq_mk,
        show (String.mk (a ++ '#' :: b)).data = a ++ '#' :: b from rfl,
        rsplitHead_eq a b hb]
  refine ⟨hv, hn, ?_, ?_, ?_⟩
  · rw [hv, hn, mk_append_hash]
  · rw [extractName_eq_mk, show (String.mk l).data = l from rfl]
    unfold rsplitHead
    rw [splitHash_not_mem _ (by simpa using hl)]
  · unfold extractVersion
    rw [show (String.mk l).data = l from rfl, splitHash_not_mem l hl]

/-- Witness for the amended C6 on `"A#B"` and the hash-free key
`"Zulrah"`. -/
theorem C6_amended_name_version_witness :
    extractVersion (String.mk (['A'] ++ '#' :: ['B'])) = String.mk ['B'] ∧
    extractName (String.mk (['A'] ++ '#' :: ['B'])) = String.mk ['A'] ∧
    extractName (String.mk (['A'] ++ '#' :: ['B'])) ++ "#" ++
      extractVersion (String.mk (['A'] ++ '#' :: ['B'])) =
        String.mk (['A'] ++ '#' :: ['B']) ∧
    extractName (String.mk ['Z', 'u', 'l', 'r', 'a', 'h']) =
      String.mk ['Z', 'u', 'l', 'r', 'a', 'h'] ∧
    extractVersion (String.mk ['Z', 'u', 'l', 'r', 'a', 'h']) = "" :=
  C6_amended_name_version ['A'] ['B'] ['Z', 'u', 'l', 'r', 'a', 'h']
    (by decide) (by decide) (by decide)

/-! Part: C7 — the Vardorvis Awakened override -/

/-- The monster the script produces for the `Vardorvis#Awakened`
scenario, whatever defence/strength the API supplied. -/
def vardAwakened : Monster :=
  { id := some (PValue.str "8609"), name := "Vardorvis", version := "Awakened",
    image := "", level := PValue.num 0, speed := PValue.num 0, size := PValue.num 0,
    skills := [PValue.num 0, PValue.num 268, PValue.str "1000",
               PValue.num 0, PValue.num 0, PValue.num 391],
    offensive := [PValue.num 0, PValue.num 0, PValue.num 0,
                  PValue.num 0, PValue.num 0, PValue.num 0],
    defensive := [PValue.num 0, PValue.num 0, PValue.num 0,
                  PValue.num 0, PValue.num 0],
    attributes := [] }

/-- C7: a raw record with key `"Vardorvis#Awakened"`, hitpoints printout
`["1000"]` and NPC ID printout `["8609"]`, and no exclusion condition
triggered, yields a monster with name `"Vardorvis"`, version
`"Awakened"`, `skills[1] = 268` and `skills[5] = 391` — whatever
defence and strength printouts `dv` and `sv` the API supplied, since the
hardcoded override overwrites both slots. -/
theorem C7_vardorvis_awakened_override (dv sv : List PValue) :
    normalizeRecord "Vardorvis#Awakened"
        { printouts := some (mkPO [PValue.str "8609"] [] [PValue.str "1000"] dv sv) } =
      Except.ok (some vardAwakened) ∧
    vardAwakened.name = "Vardorvis" ∧ vardAwakened.version = "Awakened" ∧
    vardAwakened.skills.getD 1 (PValue.num 0) = PValue.num 268 ∧
    vardAwakened.skills.getD 5 (PValue.num 0) = PValue.num 391 :=
  ⟨rfl, rfl, rfl, rfl, rfl⟩

/-! Part: C3 — the image field strips every `File:` occurrence -/

/-- A surviving monster's image field is the converted image string. -/
theorem buildMonster_image (k version : String) (pv : POVals) (img : String) (m : Monster)
    (h : buildMonster k version pv img = some m) : m.image = img := by
  unfold buildMonster at h
  split at h
  · exact absurd h (by simp)
  · injection h with h
    subst h
    rw [vardOverride_image]
    rfl

/-- The C3 counterexample record: the first `Image` element's fulltext
`"File:AFile:B.png"` contains `File:` twice. -/
def cx3rec : RawRecord :=
  { printouts := some (mkPO [PValue.num 5] [PValue.page "File:AFile:B.png"]
      [PValue.num 10] [] []) }

/-- The monster the script produces for `cx3rec`: Python's
`str.replace` removed BOTH occurrences of `File:`. -/
def cx3monster : Monster :=
  { id := some (PValue.num 5), name := "Imp", version := "", image := "AB.png",
    level := PValue.num 0, speed := PValue.num 0, size := PValue.num 0,
    skills := [PValue.num 0, PValue.num 0, PValue.num 10,
               PValue.num 0, PValue.num 0, PValue.num 0],
    offensive := [PValue.num 0, PValue.num 0, PValue.num 0,
                  PValue.num 0, PValue.num 0, PValue.num 0],
    defensive := [PValue.num 0, PValue.num 0, PValue.num 0,
                  PValue.num 0, PValue.num 0],
    attributes := [] }

/-- C3, counterexample: for a surviving record whose Image fulltext is
`"File:AFile:B.png"`, the code's `replace('File:', '')` yields
`"AB.png"`, not the leading-prefix strip `"AFile:B.png"` the claim
describes, so the image field is NOT otherwise identical to the
fulltext. -/
theorem C3_counterexample_interior_file_removed :
    normalizeAll [("Imp", cx3rec)] = Except.ok ([cx3monster], ["AB.png"]) ∧
    cx3monster.image ≠ specLeadingFileStripped "File:AFile:B.png" := by
  refine ⟨rfl, ?_⟩
  decide

/-- C3, amended: for every surviving record with a non-empty `Image`
printout whose first element has fulltext `f`, the canonical image
field equals `f` with EVERY occurrence of `"File:"` removed (Python's
`str.replace`); when `File:` occurs only as a leading prefix — the
normal case, e.g. `File:Foo.png` — this coincides with stripping the
prefix. -/
theorem C3_amended_image_replace_all (k : String) (v : RawRecord) (po : Printouts)
    (f : String) (rest : List PValue) (m : Monster)
    (hpo : v.printouts = some po)
    (himgpo : assocGet "Image" po = some (PValue.page f :: rest))
    (h : normalizeRecord k v = Except.ok (some m)) :
    m.image = pyReplace f "File:" "" := by
  obtain ⟨po', pv, img, hpo', hla, himg, hb⟩ := normalizeRecord_ok_some k v m h
  rw [hpo] at hpo'
  injection hpo' with hpo'
  subst hpo'
  have hfields := lookupAllOpt_fields po pv hla
  have hpi : pv.imagePo = PValue.page f :: rest := by
    rw [hfields.1] at himgpo
    injection himgpo
  rw [hpi] at himg
  simp only [imageField] at himg
  injection himg with himg
  rw [buildMonster_image k (extractVersion k) pv img m hb, ← himg]

/-- The witness record for the amended C3: Image fulltext
`"File:Foo.png"`. -/
def cw3rec : RawRecord :=
  { printouts := some (mkPO [PValue.num 7] [PValue.page "File:Foo.png"]
      [PValue.num 5] [] []) }

/-- The monster the script produces for `cw3rec`: image `"Foo.png"`. -/
def cw3monster : Monster :=
  { id := some (PValue.num 7), name := "Cow", version := "", image := "Foo.png",
    level := PValue.num 0, speed := PValue.num 0, size := PValue.num 0,
    skills := [PValue.num 0, PValue.num 0, PValue.num 5,
               PValue.num 0, PValue.num 0, PValue.num 0],
    offensive := [PValue.num 0, PValue.num 0, PValue.num 0,
                  PValue.num 0, PValue.num 0, PValue.num 0],
    defensive := [PValue.num 0, PValue.num 0, PValue.num 0,
                  PValue.num 0, PValue.num 0],
    attributes := [] }

/-- Witness for the amended C3: the claim's own `File:Foo.png` scenario,
where replace-all and prefix-stripping agree on `"Foo.png"`. -/
theorem C3_amended_image_replace_all_witness :
    cw3monster.image = pyReplace "File:Foo.png" "File:" "" :=
  C3_amended_image_replace_all "Cow" cw3rec
    (mkPO [PValue.num 7] [PValue.page "File:Foo.png"] [PValue.num 5] [] [])
    "File:Foo.png" [] cw3monster rfl rfl rfl

/-! Part: C9 — a missing printout key aborts the run; missing printouts are skipped -/

/-- C9: a record that HAS a printouts mapping but lacks one of the
property keys the normalizer subscripts makes normalisation raise a
key-lookup error, and that error aborts the whole run — the remaining
records are never processed.  The record `v` covers the first accessed
key, `Category`, being absent; the record `v3` covers the general case
where `Category` is present (and the category skip does not fire) but
some key accessed by the monster-dict construction — `NPC ID`,
`Hitpoints`, or any other of the 23 subscripted properties — is absent
(`hasAllKeys po3 = false` says exactly that).  By contrast, a record
missing the printouts sub-structure itself (`v2`) is skipped and the
run continues. -/
theorem C9_missing_key_aborts_missing_printouts_skips
    (k k2 k3 : String) (v v2 v3 : RawRecord) (po po3 : Printouts)
    (cat3 : List PValue)
    (rest rest2 rest3 : List (String × RawRecord))
    (hpo : v.printouts = some po)
    (hcm : pyInStr "Challenge Mode" (extractVersion k) = false)
    (hns : nsMatch k = false)
    (hcat : assocGet "Category" po = none)
    (hpo3 : v3.printouts = some po3)
    (hcm3 : pyInStr "Challenge Mode" (extractVersion k3) = false)
    (hns3 : nsMatch k3 = false)
    (hcat3 : assocGet "Category" po3 = some cat3)
    (hc1 : has_category cat3 "Non-interactive scenery" = false)
    (hc2 : has_category cat3 "Discontinued content" = false)
    (hmiss3 : hasAllKeys po3 = false)
    (hpo2 : v2.printouts = none) :
    normalizeRecord k v = Except.error "KeyError: Category" ∧
    normalizeAll ((k, v) :: rest) = Except.error "KeyError: Category" ∧
    normalizeRecord k3 v3 = Except.error "KeyError" ∧
    normalizeAll ((k3, v3) :: rest3) = Except.error "KeyError" ∧
    normalizeRecord k2 v2 = Except.ok none ∧
    normalizeAll ((k2, v2) :: rest2) = normalizeAll rest2 := by
  have h1 : normalizeRecord k v = Except.error "KeyError: Category" := by
    simp only [normalizeRecord, hpo]
    rw [if_neg (by simp [hcm]), if_neg (by simp [hns]), hcat]
  have h5 : normalizeRecord k3 v3 = Except.error "KeyError" := by
    simp only [normalizeRecord, hpo3]
    rw [if_neg (by simp [hcm3]), if_neg (by simp [hns3])]
    simp only [hcat3]
    rw [if_neg (by simp [hc1, hc2])]
    have hla : lookupAllOpt po3 = none := by
      unfold lookupAllOpt
      rw [if_neg (by simp [hmiss3])]
    simp only [hla]
  have h3 : normalizeRecord k2 v2 = Except.ok none := by
    simp only [normalizeRecord, hpo2]
  refine ⟨h1, ?_, h5, ?_, h3, ?_⟩
  · conv_lhs => rw [normalizeAll]
    rw [h1]
  · conv_lhs => rw [normalizeAll]
    rw [h5]
  · conv_lhs => rw [normalizeAll]
    rw [h3]

/-- Witness for C9: the key `"Goblin"` with an empty printouts mapping
(so already `Category` is absent) aborts; the key `"Zombie"` whose
printouts DO contain `Category` (passing the category check) and
`Hitpoints` but lack `NPC ID` and the other constructed keys also
aborts; `"Imp"` with no printouts member is skipped. -/
theorem C9_missing_key_aborts_missing_printouts_skips_witness :
    normalizeRecord "Goblin" { printouts := some [] } = Except.error "KeyError: Category" ∧
    normalizeAll [("Goblin", { printouts := some [] })] = Except.error "KeyError: Category" ∧
    normalizeRecord "Zombie"
        { printouts := some [("Category", []), ("Hitpoints", [PValue.num 5])] } =
      Except.error "KeyError" ∧
    normalizeAll [("Zombie",
        { printouts := some [("Category", []), ("Hitpoints", [PValue.num 5])] })] =
      Except.error "KeyError" ∧
    normalizeRecord "Imp" { printouts := none } = Except.ok none ∧
    normalizeAll [("Imp", { printouts := none })] = normalizeAll [] :=
  C9_missing_key_aborts_missing_printouts_skips "Goblin" "Imp" "Zombie"
    { printouts := some [] } { printouts := none }
    { printouts := some [("Category", []), ("Hitpoints", [PValue.num 5])] }
    [] [("Category", []), ("Hitpoints", [PValue.num 5])] [] [] [] []
    rfl (by decide) (by decide) rfl
    rfl (by decide) (by decide) rfl rfl rfl (by decide) rfl

/-! Part: C8 — per-name download behaviour -/

/-- C8: for a name that is not already cached, an HTTP 200 response has
its body written verbatim as binary under that name with `succeeded`
incremented, and any non-200 status increments `failed` and leaves no
file for that name. -/
theorem C8_uncached_download_behaviour (http : String → HttpResp) (st : DlState)
    (img : String) (hc : isCached st.files img = false) :
    ((http img).status = 200 →
      dlStep http st img =
        { st with files := (img, (http img).body) :: st.files,
                  succeeded := st.succeeded + 1 } ∧
      assocGet img (dlStep http st img).files = some (http img).body) ∧
    ((http img).status ≠ 200 →
      dlStep http st img = { st with failed := st.failed + 1 } ∧
      isCached (dlStep http st img).files img = false) := by
  constructor
  · intro h200
    have hstep : dlStep http st img =
        { st with files := (img, (http img).body) :: st.files,
                  succeeded := st.succeeded + 1 } := by
      unfold dlStep
      rw [if_neg (by simp [hc]), if_pos h200]
    refine ⟨hstep, ?_⟩
    rw [hstep]
    simp [assocGet]
  · intro hne
    have hstep : dlStep http st img = { st with failed := st.failed + 1 } := by
      unfold dlStep
      rw [if_neg (by simp [hc]), if_neg hne]
    refine ⟨hstep, ?_⟩
    rw [hstep]
    exact hc

/-- Witness for C8: a 200 download of `"a.png"` stores the body `[7]`;
a 404 on `"b.png"` only counts a failure. -/
theorem C8_uncached_download_behaviour_witness :
    dlStep (fun _ => ⟨200, [7]⟩) ⟨[], 0, 0, 0⟩ "a.png" =
      { files := [("a.png", [7])], succeeded := 1, failed := 0, skipped := 0 } ∧
    dlStep (fun _ => ⟨404, []⟩) ⟨[], 0, 0, 0⟩ "b.png" =
      { files := [], succeeded := 0, failed := 1, skipped := 0 } :=
  ⟨((C8_uncached_download_behaviour (fun _ => ⟨200, [7]⟩) ⟨[], 0, 0, 0⟩ "a.png" rfl).1 rfl).1,
   ((C8_uncached_download_behaviour (fun _ => ⟨404, []⟩) ⟨[], 0, 0, 0⟩ "b.png" rfl).2
      (by decide)).1⟩

/-! Part: C4 — running the download phase twice -/

/-- Cache membership after a run: a name is cached afterwards iff it was
cached before, or it occurs in the processed list and its download
returns HTTP 200. -/
theorem downloadAll_cached_iff (http : String → HttpResp) (ns : List String) :
    ∀ (st : DlState) (x : String),
      isCached (downloadAll http st ns).files x = true ↔
        (isCached st.files x = true ∨ (x ∈ ns ∧ (http x).status = 200)) := by
  induction ns with
  | nil => intro st x; simp [downloadAll]
  | cons n rest ih =>
    intro st x
    rw [downloadAll_cons, ih (dlStep http st n) x]
    have hstep : isCached (dlStep http st n).files x = true ↔
        (isCached st.files x = true ∨ (x = n ∧ (http x).status = 200)) := by
      unfold dlStep
      split
      case isTrue hcn =>
        constructor
        · exact fun h => Or.inl h
        · rintro (h | ⟨hx, _⟩)
          · exact h
          · subst hx; exact hcn
      case isFalse hcn =>
        split
        case isTrue h200 =>
          by_cases hxn : x = n
          · subst hxn
            simp [isCached, assocGet, h200]
          · constructor
            · intro h
              left
              simpa [isCached, assocGet, Ne.symm hxn] using h
            · rintro (h | ⟨hx, _⟩)
              · simp [isCached, assocGet, Ne.symm hxn]
                simpa [isCached] using h
              · exact absurd hx hxn
        case isFalse h200 =>
          constructor
          · exact fun h => Or.inl h
          · rintro (h | ⟨hx, h2⟩)
            · exact h
            · subst hx; exact absurd h2 h200
    rw [hstep]
    simp only [List.mem_cons]
    constructor
    · rintro ((h | ⟨hx, hs⟩) | ⟨hx, hs⟩)
      · exact Or.inl h
      · exact Or.inr ⟨Or.inl hx, hs⟩
      · exact Or.inr ⟨Or.inr hx, hs⟩
    · rintro (h | ⟨hx | hx, hs⟩)
      · exact Or.inl (Or.inl h)
      · exact Or.inl (Or.inr ⟨hx, hs⟩)
      · exact Or.inr ⟨hx, hs⟩

/-- A run in which every name is either cached or doomed to a non-200
response writes nothing: the cache and `succeeded` are unchanged,
`skipped` counts the cached names and `failed` the rest. -/
theorem downloadAll_no_writes (http : String → HttpResp) (ns : List String) :
    ∀ st : DlState,
      (∀ x ∈ ns, isCached st.files x = true ∨ (http x).status ≠ 200) →
      (downloadAll http st ns).files = st.files ∧
      (downloadAll http st ns).succeeded = st.succeeded ∧
      (downloadAll http st ns).failed
        = st.failed + ns.countP (fun x => !(isCached st.files x)) ∧
      (downloadAll http st ns).skipped
        = st.skipped + ns.countP (fun x => isCached st.files x) := by
  induction ns with
  | nil => intro st _; simp [downloadAll]
  | cons n rest ih =>
    intro st H
    rw [downloadAll_cons]
    by_cases hcn : isCached st.files n = true
    · have hstep : dlStep http st n = { st with skipped := st.skipped + 1 } := by
        unfold dlStep
        rw [if_pos hcn]
      rw [hstep]
      obtain ⟨f1, f2, f3, f4⟩ := ih { st with skipped := st.skipped + 1 }
        (fun x hx => H x (List.mem_cons_of_mem n hx))
      refine ⟨f1, f2, ?_, ?_⟩
      · rw [f3]
        simp [List.countP_cons, hcn]
      · rw [f4]
        simp only [List.countP_cons, hcn]
        simp
        omega
    · have hne : (http n).status ≠ 200 := by
        rcases H n (List.mem_cons_self n rest) with h | h
        · exact absurd h hcn
        · exact h
      have hstep : dlStep http st n = { st with failed := st.failed + 1 } := by
        unfold dlStep
        rw [if_neg hcn, if_neg hne]
      rw [hstep]
      obtain ⟨f1, f2, f3, f4⟩ := ih { st with failed := st.failed + 1 }
        (fun x hx => H x (List.mem_cons_of_mem n hx))
      have hcn' : isCached st.files n = false := by
        simpa using hcn
      refine ⟨f1, f2, ?_, ?_⟩
      · rw [f3]
        simp only [List.countP_cons, hcn']
        simp
        omega
      · rw [f4]
        simp [List.countP_cons, hcn']

/-- The `failed` counter never decreases. -/
theorem downloadAll_failed_mono (http : String → HttpResp) (ns : List String) :
    ∀ st : DlState, st.failed ≤ (downloadAll http st ns).failed := by
  induction ns with
  | nil => intro st; exact Nat.le_refl _
  | cons n rest ih =>
    intro st
    rw [downloadAll_cons]
    refine Nat.le_trans ?_ (ih (dlStep http st n))
    unfold dlStep
    split
    · exact Nat.le_refl _
    · split
      · exact Nat.le_refl _
      · exact Nat.le_succ _

/-- If a run reports no new failures, every processed name ends up
cached. -/
theorem downloadAll_all_cached_of_no_failures (http : String → HttpResp) (ns : List String) :
    ∀ st : DlState, (downloadAll http st ns).failed = st.failed →
      ∀ x ∈ ns, isCached (downloadAll http st ns).files x = true := by
  induction ns with
  | nil => intro st _ x hx; exact absurd hx (List.not_mem_nil x)
  | cons n rest ih =>
    intro st hf x hx
    rw [downloadAll_cons] at hf ⊢
    by_cases hcn : isCached st.files n = true
    · have hstep : dlStep http st n = { st with skipped := st.skipped + 1 } := by
        unfold dlStep
        rw [if_pos hcn]
      rcases List.mem_cons.mp hx with hxe | hxr
      · subst hxe
        rw [downloadAll_cached_iff]
        left
        rw [hstep]
        exact hcn
      · refine ih (dlStep http st n) ?_ x hxr
        rw [hf, hstep]
    · by_cases h200 : (http n).status = 200
      · have hstep : dlStep http st n =
            { st with files := (n, (http n).body) :: st.files,
                      succeeded := st.succeeded + 1 } := by
          unfold dlStep
          rw [if_neg hcn, if_pos h200]
        rcases List.mem_cons.mp hx with hxe | hxr
        · subst hxe
          rw [downloadAll_cached_iff]
          left
          rw [hstep]
          simp [isCached, assocGet]
        · refine ih (dlStep http st n) ?_ x hxr
          rw [hf, hstep]
      · have hstep : dlStep http st n = { st with failed := st.failed + 1 } := by
          unfold dlStep
          rw [if_neg hcn, if_neg h200]
        rw [hstep] at hf
        have hmono := downloadAll_failed_mono http rest { st with failed := st.failed + 1 }
        rw [hf] at hmono
        exact absurd hmono (by simp)

/-- The always-404 oracle for the C4 counterexample. -/
def http404 : String → HttpResp := fun _ => ⟨404, []⟩

/-- C4, counterexample: with a single required image whose download
fails (HTTP 404) on both runs and an initially empty cache, the second
run re-attempts the download, so its `skipped` count is `0`, not
`len(names) = 1` — the first run's failure left the name uncached. -/
theorem C4_counterexample_failed_download_rerun :
    (downloadAll http404
        ⟨(downloadAll http404 ⟨[], 0, 0, 0⟩ ["a.png"]).files, 0, 0, 0⟩
        ["a.png"]).skipped = 0 ∧
    (["a.png"] : List String).length = 1 ∧
    (downloadAll http404 ⟨[], 0, 0, 0⟩ ["a.png"]).failed = 1 :=
  ⟨rfl, rfl, rfl⟩

/-- C4, amended: running the downloader twice on the same name set with
the same responses and no external changes makes the second run write
no file at all (cache identical, `succeeded = 0`); its `skipped` count
equals `len(names)` provided the first run had no failed downloads —
names that failed on the first run are still uncached and are
re-attempted, not skipped. -/
theorem C4_amended_second_run (http : String → HttpResp)
    (files0 : List (String × List Nat)) (names : List String)
    (hnd : names.Nodup) :
    (downloadAll http
        ⟨(downloadAll http ⟨files0, 0, 0, 0⟩ names).files, 0, 0, 0⟩ names).files
      = (downloadAll http ⟨files0, 0, 0, 0⟩ names).files ∧
    (downloadAll http
        ⟨(downloadAll http ⟨files0, 0, 0, 0⟩ names).files, 0, 0, 0⟩ names).succeeded = 0 ∧
    ((downloadAll http ⟨files0, 0, 0, 0⟩ names).failed = 0 →
      (downloadAll http
          ⟨(downloadAll http ⟨files0, 0, 0, 0⟩ names).files, 0, 0, 0⟩ names).skipped
        = names.length) := by
  have H : ∀ x ∈ names,
      isCached (downloadAll http ⟨files0, 0, 0, 0⟩ names).files x = true ∨
        (http x).status ≠ 200 := by
    intro x hx
    by_cases h200 : (http x).status = 200
    · exact Or.inl ((downloadAll_cached_iff http names ⟨files0, 0, 0, 0⟩ x).mpr
        (Or.inr ⟨hx, h200⟩))
    · exact Or.inr h200
  obtain ⟨f1, f2, f3, f4⟩ := downloadAll_no_writes http names
    ⟨(downloadAll http ⟨files0, 0, 0, 0⟩ names).files, 0, 0, 0⟩ H
  refine ⟨f1, f2, ?_⟩
  intro hf0
  have hall := downloadAll_all_cached_of_no_failures http names ⟨files0, 0, 0, 0⟩ hf0
  rw [f4]
  show 0 + names.countP
      (fun x => isCached (downloadAll http ⟨files0, 0, 0, 0⟩ names).files x)
      = names.length
  rw [List.countP_eq_length.mpr hall, Nat.zero_add]

/-- The all-200 oracle for the C4 witness. -/
def http200 : String → HttpResp := fun _ => ⟨200, [1]⟩

/-- Witness for the amended C4 on the single-name set `["a.png"]` with
an all-succeeding server. -/
theorem C4_amended_second_run_witness :
    (downloadAll http200
        ⟨(downloadAll http200 ⟨[], 0, 0, 0⟩ ["a.png"]).files, 0, 0, 0⟩ ["a.png"]).files
      = (downloadAll http200 ⟨[], 0, 0, 0⟩ ["a.png"]).files ∧
    (downloadAll http200
        ⟨(downloadAll http200 ⟨[], 0, 0, 0⟩ ["a.png"]).files, 0, 0, 0⟩
        ["a.png"]).succeeded = 0 ∧
    (downloadAll http200
        ⟨(downloadAll http200 ⟨[], 0, 0, 0⟩ ["a.png"]).files, 0, 0, 0⟩
        ["a.png"]).skipped = 1 := by
  obtain ⟨f1, f2, f3⟩ := C4_amended_second_run http200 [] ["a.png"] (by decide)
  exact ⟨f1, f2, f3 rfl⟩
